import Mathlib

/-
Formal model of the sanoid-manager 3.0.0 backend (Python, FastAPI).
Each definition is a shallow embedding of one function of the source tree,
named after it; file and line references point into src/backend.
Spec-side definitions used for refinement comparison are marked as such.
-/

namespace SanoidManager

/-- Python truthiness of an optional string: None and the empty string are falsy. -/
def pyTruthyStr : Option String → Bool
  | none => false
  | some s => s != ""

/-- Python `value or default` idiom for nullable string columns
(used at both syncoid call sites, e.g. sync_jobs.py line 162: job.compress or "lz4"). -/
def pyOr (v : Option String) (dflt : String) : String :=
  match v with
  | none => dflt
  | some s => if s = "" then dflt else s

/-- SyncoidService.build_syncoid_command (syncoid_service.py lines 19-98).
Builds the syncoid invocation: options are appended in source order
(recursive, compress, mbuffer, no-sync-snap, force-delete, ssh options,
extra args), then the source and destination arguments, and the parts are
joined with single spaces. The ssh options come from the destination when
dest_host is truthy, else from the source when source_host is truthy. -/
def build_syncoid_command
    (source_host : Option String) (source_dataset : String)
    (dest_host : Option String) (dest_dataset : String)
    (source_user dest_user : String) (source_port dest_port : Nat)
    (source_key dest_key : String) (recursive : Bool) (compress : String)
    (mbuffer_size : String) (no_sync_snap force_delete : Bool)
    (extra_args : String) : String :=
  String.intercalate " "
    (["syncoid"]
      ++ (if recursive then ["--recursive"] else [])
      ++ (if compress ≠ "" ∧ compress ≠ "none" then ["--compress=" ++ compress] else [])
      ++ (if mbuffer_size ≠ "" then ["--mbuffer-size=" ++ mbuffer_size] else [])
      ++ (if no_sync_snap then ["--no-sync-snap"] else [])
      ++ (if force_delete then ["--force-delete"] else [])
      ++ (if pyTruthyStr dest_host then
            ["--sshkey=" ++ dest_key]
              ++ (if dest_port ≠ 22 then ["--sshport=" ++ toString dest_port] else [])
          else if pyTruthyStr source_host then
            ["--sshkey=" ++ source_key]
              ++ (if source_port ≠ 22 then ["--sshport=" ++ toString source_port] else [])
          else [])
      ++ (if extra_args ≠ "" then [extra_args] else [])
      ++ [(match source_host with
           | some h => if h != "" then source_user ++ "@" ++ h ++ ":" ++ source_dataset
                       else source_dataset
           | none => source_dataset),
          (match dest_host with
           | some h => if h != "" then dest_user ++ "@" ++ h ++ ":" ++ dest_dataset
                       else dest_dataset
           | none => dest_dataset)])

/-- Spec-side command builder, written from the claim wording of C1 for refinement
comparison: recursive if set; compress unless the tag is none; mbuffer-size;
no-sync-snap and force-delete if set; sshkey (plus sshport when the port is not 22)
taken from the destination endpoint when the destination is remote, otherwise from
the source endpoint when the source is remote; the free-form extras verbatim (when
any); finally source and destination, written user@host:dataset for a remote side
and as the bare dataset for a local side. -/
def claimSyncoidCommand
    (source_host : Option String) (source_dataset : String)
    (dest_host : Option String) (dest_dataset : String)
    (source_user dest_user : String) (source_port dest_port : Nat)
    (source_key dest_key : String) (recursive : Bool) (compress : String)
    (mbuffer_size : String) (no_sync_snap force_delete : Bool)
    (extra_args : String) : String :=
  String.intercalate " "
    (["syncoid"]
      ++ (if recursive then ["--recursive"] else [])
      ++ (if compress ≠ "none" then ["--compress=" ++ compress] else [])
      ++ ["--mbuffer-size=" ++ mbuffer_size]
      ++ (if no_sync_snap then ["--no-sync-snap"] else [])
      ++ (if force_delete then ["--force-delete"] else [])
      ++ (if pyTruthyStr dest_host then
            ["--sshkey=" ++ dest_key]
              ++ (if dest_port ≠ 22 then ["--sshport=" ++ toString dest_port] else [])
          else if pyTruthyStr source_host then
            ["--sshkey=" ++ source_key]
              ++ (if source_port ≠ 22 then ["--sshport=" ++ toString source_port] else [])
          else [])
      ++ (if extra_args ≠ "" then [extra_args] else [])
      ++ [(match source_host with
           | some h => if h != "" then source_user ++ "@" ++ h ++ ":" ++ source_dataset
                       else source_dataset
           | none => source_dataset),
          (match dest_host with
           | some h => if h != "" then dest_user ++ "@" ++ h ++ ":" ++ dest_dataset
                       else dest_dataset
           | none => dest_dataset)])

/-- C1: the syncoid command builder appends options in exactly the claimed order.
Part one: for every argument vector whose compress tag and mbuffer size are
non-empty (both call sites pass job.compress or "lz4" and job.mbuffer_size or
"128M", so this holds for every Job), the built command equals the command the
claim describes. Part two: on the S1 scenario (local source, remote destination
root at 192.168.1.101, compress lz4, mbuffer 128M, default port and key) the
output is byte-identical to the string given in the claim. -/
theorem syncoid_command_order_and_s1 :
    (∀ (source_host : Option String) (source_dataset : String)
       (dest_host : Option String) (dest_dataset : String)
       (source_user dest_user : String) (source_port dest_port : Nat)
       (source_key dest_key : String) (recursive : Bool) (compress : String)
       (mbuffer_size : String) (no_sync_snap force_delete : Bool)
       (extra_args : String),
       compress ≠ "" → mbuffer_size ≠ "" →
       build_syncoid_command source_host source_dataset dest_host dest_dataset
         source_user dest_user source_port dest_port source_key dest_key
         recursive compress mbuffer_size no_sync_snap force_delete extra_args
       = claimSyncoidCommand source_host source_dataset dest_host dest_dataset
           source_user dest_user source_port dest_port source_key dest_key
           recursive compress mbuffer_size no_sync_snap force_delete extra_args) ∧
    build_syncoid_command none "rpool/data/vm-100-disk-0"
        (some "192.168.1.101") "rpool/replica/vm-100-disk-0"
        "root" "root" 22 22 "/root/.ssh/id_rsa" "/root/.ssh/id_rsa"
        false "lz4" "128M" false false ""
      = "syncoid --compress=lz4 --mbuffer-size=128M --sshkey=/root/.ssh/id_rsa rpool/data/vm-100-disk-0 root@192.168.1.101:rpool/replica/vm-100-disk-0" := by
  constructor
  · intro sh sd dh dd su du sp dp sk dk r c m n f e hc hm
    unfold build_syncoid_command claimSyncoidCommand
    simp [hc, hm]
  · rfl

/-- Witness for C1: instantiates the universally quantified part at the S1
argument vector, discharging both hypotheses on concrete strings. -/
theorem syncoid_command_order_witness :
    build_syncoid_command none "rpool/data/vm-100-disk-0"
        (some "192.168.1.101") "rpool/replica/vm-100-disk-0"
        "root" "root" 22 22 "/root/.ssh/id_rsa" "/root/.ssh/id_rsa"
        false "lz4" "128M" false false ""
      = claimSyncoidCommand none "rpool/data/vm-100-disk-0"
          (some "192.168.1.101") "rpool/replica/vm-100-disk-0"
          "root" "root" 22 22 "/root/.ssh/id_rsa" "/root/.ssh/id_rsa"
          false "lz4" "128M" false false "" :=
  syncoid_command_order_and_s1.1 none "rpool/data/vm-100-disk-0"
    (some "192.168.1.101") "rpool/replica/vm-100-disk-0"
    "root" "root" 22 22 "/root/.ssh/id_rsa" "/root/.ssh/id_rsa"
    false "lz4" "128M" false false "" (by decide) (by decide)

/-- Mutable counter and status fields of a SyncJob row (database.py lines 295-301). -/
structure JobStats where
  last_status : Option String
  run_count : Nat
  error_count : Nat
  consecutive_failures : Nat
deriving DecidableEq

/-- Completion write of the scheduler-dispatched path,
SchedulerService._execute_job (scheduler.py lines 223-247): run_count is
incremented; on success last_status becomes success; on failure last_status
becomes failed and error_count is incremented. The function never assigns
consecutive_failures on either branch. -/
def schedulerCompletionWrite (j : JobStats) (success : Bool) : JobStats :=
  if success then
    { j with last_status := some "success", run_count := j.run_count + 1 }
  else
    { j with last_status := some "failed", run_count := j.run_count + 1,
             error_count := j.error_count + 1 }

/-- Completion write of the manual/background-task path,
execute_sync_job_task (sync_jobs.py lines 170-227): run_count is incremented;
on success last_status becomes success and consecutive_failures is reset to 0;
on failure last_status becomes failed, error_count is incremented and
consecutive_failures is incremented. -/
def taskCompletionWrite (j : JobStats) (success : Bool) : JobStats :=
  if success then
    { j with last_status := some "success", run_count := j.run_count + 1,
             consecutive_failures := 0 }
  else
    { j with last_status := some "failed", run_count := j.run_count + 1,
             error_count := j.error_count + 1,
             consecutive_failures := j.consecutive_failures + 1 }

/-- Counterexample for C2. The claim says that in BOTH execution paths a failed
run increments consecutive_failures and a successful run resets it to 0. On the
scheduler path this is false: starting from consecutive_failures = 0, a failed
run leaves it at 0 (not 1), and starting from consecutive_failures = 2, a
successful run leaves it at 2 (not 0). -/
theorem scheduler_path_consecutive_failures_cex :
    (schedulerCompletionWrite ⟨some "running", 0, 0, 0⟩ false).consecutive_failures ≠ 0 + 1 ∧
    (schedulerCompletionWrite ⟨some "running", 5, 2, 2⟩ true).consecutive_failures ≠ 0 := by
  decide

/-- C2 amended: the completion write of the manual/background-task path
increments run_count, and on failure also error_count and
consecutive_failures, while on success it resets consecutive_failures to 0;
the scheduler-dispatched path increments run_count, and error_count on
failure, but leaves consecutive_failures unchanged on both outcomes. -/
theorem completion_write_counters (j : JobStats) :
    ((taskCompletionWrite j true).run_count = j.run_count + 1 ∧
     (taskCompletionWrite j true).consecutive_failures = 0 ∧
     (taskCompletionWrite j true).error_count = j.error_count) ∧
    ((taskCompletionWrite j false).run_count = j.run_count + 1 ∧
     (taskCompletionWrite j false).error_count = j.error_count + 1 ∧
     (taskCompletionWrite j false).consecutive_failures = j.consecutive_failures + 1) ∧
    ((schedulerCompletionWrite j true).run_count = j.run_count + 1 ∧
     (schedulerCompletionWrite j false).run_count = j.run_count + 1 ∧
     (schedulerCompletionWrite j false).error_count = j.error_count + 1 ∧
     (schedulerCompletionWrite j true).consecutive_failures = j.consecutive_failures ∧
     (schedulerCompletionWrite j false).consecutive_failures = j.consecutive_failures) := by
  refine ⟨⟨rfl, rfl, rfl⟩, ⟨rfl, rfl, rfl⟩, rfl, rfl, rfl, rfl, rfl⟩

/-- The SyncJob fields consulted by the scheduler tick when deciding whether to
dispatch (scheduler.py lines 133-158). -/
structure SchedJobRow where
  id : Nat
  is_active : Bool
  schedule : Option String
  last_status : Option String
  last_run : Option Nat
deriving DecidableEq

/-- The Store query filter of _check_and_run_jobs (scheduler.py lines 133-137):
active jobs whose schedule is non-null and non-empty. -/
def jobQueryFilter (j : SchedJobRow) : Bool :=
  j.is_active && (match j.schedule with
                  | none => false
                  | some s => s != "")

/-- The dispatch decision of _check_and_run_jobs (scheduler.py lines 141-158):
a job that passed the query filter is dispatched exactly when now has reached
its next-fire time. No other field is consulted. -/
def dispatchDecision (j : SchedJobRow) (nextFire now : Nat) : Bool :=
  jobQueryFilter j && decide (nextFire ≤ now)

/-- Counterexample for C3. The claim says the scheduler checks the Store-read
last_status = running as a gate and skips dispatch while a run is open. In
fact a due job whose last_status is running is dispatched: the decision
function returns true for this concrete job even though its last_status is
running, so a second JobLog row with status started is opened while the first
is still open. -/
theorem dispatch_ignores_running_status_cex :
    dispatchDecision ⟨1, true, some "*/5 * * * *", some "running", some 0⟩ 5 10 = true ∧
    (⟨1, true, some "*/5 * * * *", some "running", some 0⟩ : SchedJobRow).last_status
      = some "running" := by
  decide

/-- C3 amended: the dispatch decision is a function of is_active, the schedule
string and the next-fire comparison only; it is invariant under any change of
last_status, so no running-gate exists and a Job can be dispatched while a
previous run is still open. -/
theorem dispatch_decision_no_running_gate
    (id : Nat) (act : Bool) (sched : Option String) (s₁ s₂ : Option String)
    (lr : Option Nat) (nextFire now : Nat) :
    dispatchDecision ⟨id, act, sched, s₁, lr⟩ nextFire now
      = dispatchDecision ⟨id, act, sched, s₂, lr⟩ nextFire now := by
  rfl

/-- The complete per-run effect of execute_sync_job_task (sync_jobs.py lines
79-278) on the Job row, the JobLog row it closes, and the scheduler next-fire
table. The function creates its JobLog without attempt_number, so the column
default 1 applies (database.py line 330), and it contains no call into
scheduler_service: it never inserts a transient next-fire entry, regardless of
retry_on_failure, max_retries, retry_delay_minutes or the outcome, so the
insertion list is empty by construction. -/
structure TaskRunEffect where
  jobAfter : JobStats
  logStatus : String
  logAttempt : Nat
  logCompleted : Bool
  schedulerInsertions : List (Nat × Nat)
deriving DecidableEq

/-- Effect of one completed execute_sync_job_task run (manual/background path). -/
def executeSyncJobTaskEffect (j : JobStats) (success : Bool) : TaskRunEffect :=
  { jobAfter := taskCompletionWrite j success
    logStatus := if success then "success" else "failed"
    logAttempt := 1
    logCompleted := true
    schedulerInsertions := [] }

/-- Effect of one completed SchedulerService._execute_job run (scheduler path,
scheduler.py lines 165-276): likewise creates its JobLog without
attempt_number and performs no next-fire insertion. -/
def schedulerExecuteJobEffect (j : JobStats) (success : Bool) : TaskRunEffect :=
  { jobAfter := schedulerCompletionWrite j success
    logStatus := if success then "success" else "failed"
    logAttempt := 1
    logCompleted := true
    schedulerInsertions := [] }

/-- Counterexample for C4, at the S2 scenario of the claim: a failed run of a
job with retry_on_failure enabled and consecutive_failures below max_retries.
The claim says exactly one one-shot retry is armed in the next-fire table and
the retry log row carries attempt_number 2; in fact no insertion is made (the
list of armed entries is empty, length 0, not 1) and every log row carries
attempt_number 1. -/
theorem no_retry_armed_cex :
    (executeSyncJobTaskEffect ⟨some "running", 0, 0, 0⟩ false).schedulerInsertions.length ≠ 1 ∧
    (executeSyncJobTaskEffect ⟨some "running", 0, 0, 0⟩ false).jobAfter.consecutive_failures = 1 ∧
    (executeSyncJobTaskEffect ⟨some "running", 0, 0, 0⟩ false).logAttempt = 1 ∧
    (schedulerExecuteJobEffect ⟨some "running", 0, 0, 0⟩ false).schedulerInsertions.length ≠ 1 := by
  decide

/-- C4 amended: neither execution path ever arms a retry: the retry policy
columns are stored but unread by the executors, the set of transient next-fire
insertions of any completed run is empty on both paths, and every JobLog row
is created with attempt_number 1 (the column default). -/
theorem run_effect_no_retry_attempt_one (j : JobStats) (success : Bool) :
    (executeSyncJobTaskEffect j success).schedulerInsertions = [] ∧
    (executeSyncJobTaskEffect j success).logAttempt = 1 ∧
    (schedulerExecuteJobEffect j success).schedulerInsertions = [] ∧
    (schedulerExecuteJobEffect j success).logAttempt = 1 := by
  exact ⟨rfl, rfl, rfl, rfl⟩

/-- A JobLog row (database.py lines 311-335); timestamps are minutes since an
arbitrary epoch. -/
structure JobLogRow where
  job_id : Nat
  status : String
  attempt_number : Nat
  started_at : Nat
  completed_at : Option Nat
  error : Option String
deriving DecidableEq

/-- The slice of the Store that startup could touch: SyncJob rows (keyed by
id), JobLog rows, and SystemConfig key/value pairs. -/
structure StoreState where
  jobs : List (Nat × JobStats)
  job_logs : List JobLogRow
  config : List (String × String)
deriving DecidableEq

/-- Lookup of a SystemConfig value by key (a db.query(...).first() call). -/
def configLookup (st : StoreState) (k : String) : Option String :=
  (st.config.find? (fun p => p.1 == k)).map (fun p => p.2)

/-- In-memory state of the SchedulerService singleton (scheduler.py lines
24-30). -/
structure SchedulerMem where
  running : Bool
  daily_summary_hour : Nat
  daily_summary_enabled : Bool
  nextFire : List (Nat × Nat)
deriving DecidableEq

/-- Half of _load_daily_summary_config (scheduler.py lines 59-67): if the key
daily_summary_hour exists with a truthy value that parses as an integer, use
it, otherwise keep the current hour. -/
def loadSummaryHour (st : StoreState) (current : Nat) : Nat :=
  match configLookup st "daily_summary_hour" with
  | some v => if v != "" then (match v.toNat? with
                               | some n => n
                               | none => current)
              else current
  | none => current

/-- Other half of _load_daily_summary_config (scheduler.py lines 69-75):
default true; a present truthy value enables only for true, 1 or yes. -/
def loadSummaryEnabled (st : StoreState) : Bool :=
  match configLookup st "daily_summary_enabled" with
  | some v => if v != "" then (v == "true" || v == "1" || v == "yes") else true
  | none => true

/-- SchedulerService.start (scheduler.py lines 32-42): returns immediately when
already running; otherwise sets the running flag, spawns the loop task, and
loads the daily-summary configuration. It performs no read or write of SyncJob
or JobLog rows: there is no stale-started-log sweep anywhere in the function. -/
def schedulerStart (mem : SchedulerMem) (st : StoreState) : SchedulerMem × StoreState :=
  if mem.running then (mem, st)
  else
    ({ mem with running := true,
                daily_summary_hour := loadSummaryHour st mem.daily_summary_hour,
                daily_summary_enabled := loadSummaryEnabled st }, st)

/-- The SystemConfig defaults seeded at startup (database.py lines 400-421). -/
def defaultConfigEntries : List (String × String) :=
  [("auth_method", "proxmox"), ("auth_proxmox_node", ""),
   ("auth_proxmox_port", "8006"), ("auth_proxmox_verify_ssl", "false"),
   ("auth_session_timeout", "480"), ("auth_allow_local_fallback", "true"),
   ("syncoid_default_compress", "lz4"), ("syncoid_default_mbuffer", "128M"),
   ("syncoid_timeout", "3600"), ("log_retention_days", "30"),
   ("audit_retention_days", "90"), ("ui_theme", "dark"),
   ("ui_refresh_interval", "30")]

/-- init_default_config (database.py lines 397-439): inserts each missing
default SystemConfig key (and a NotificationConfig row, outside this slice);
SyncJob and JobLog rows are untouched. -/
def initDefaultConfig (st : StoreState) : StoreState :=
  { st with config :=
      st.config ++ defaultConfigEntries.filter (fun e => (configLookup st e.1).isNone) }

/-- Application startup, the lifespan hook of main.py (lines 30-45): create the
schema, seed default configuration, start the scheduler. -/
def appStartup (mem : SchedulerMem) (st : StoreState) : SchedulerMem × StoreState :=
  schedulerStart mem (initDefaultConfig st)

/-- Counterexample for C5. The claim says that at scheduler startup every stale
JobLog still in status started is rewritten to failed with the owning Job set
to failed. Concretely: a store holding one JobLog in status started from time
0 (arbitrarily older than any threshold) and its Job with last_status running
passes through startup completely unchanged: the log is still started with no
completed_at and no error, and the Job is still running. -/
theorem stale_log_not_recovered_cex :
    (appStartup ⟨false, 8, true, []⟩
        ⟨[(1, ⟨some "running", 3, 1, 0⟩)], [⟨1, "started", 1, 0, none, none⟩], []⟩).2.job_logs
      = [⟨1, "started", 1, 0, none, none⟩] ∧
    (appStartup ⟨false, 8, true, []⟩
        ⟨[(1, ⟨some "running", 3, 1, 0⟩)], [⟨1, "started", 1, 0, none, none⟩], []⟩).2.jobs
      = [(1, ⟨some "running", 3, 1, 0⟩)] := by
  decide

/-- C5 amended: startup performs no recovery at all: for every scheduler state
and store, the JobLog table and the SyncJob rows after the lifespan startup
are exactly those before it (only SystemConfig seeding happens), so a process
killed mid-run leaves its started log and running last_status in place
indefinitely. -/
theorem startup_preserves_logs_and_jobs (mem : SchedulerMem) (st : StoreState) :
    (appStartup mem st).2.job_logs = st.job_logs ∧
    (appStartup mem st).2.jobs = st.jobs := by
  unfold appStartup schedulerStart initDefaultConfig
  by_cases h : mem.running <;> simp [h]

/-- A Node row, restricted to the fields the delete path consults
(database.py lines 184-214). -/
structure NodeRow where
  id : Nat
  name : String
deriving DecidableEq

/-- A SyncJob row, restricted to its Node references (database.py lines
253-259). -/
structure SyncJobRef where
  id : Nat
  source_node_id : Nat
  dest_node_id : Nat
deriving DecidableEq

/-- Store slice for the node-deletion path. -/
structure NodeStore where
  nodes : List NodeRow
  sync_jobs : List SyncJobRef
deriving DecidableEq

/-- Whether any SyncJob references a Node id as its source or destination. -/
def nodeReferenced (st : NodeStore) (node_id : Nat) : Bool :=
  st.sync_jobs.any (fun j => j.source_node_id == node_id || j.dest_node_id == node_id)

/-- delete_node (nodes.py lines 204-227): 404 when the Node id is absent;
otherwise db.delete(node) is issued and the transaction commits (inside
log_audit, auth.py line 212). The handler has no explicit referencing-job
check, but the Node-to-SyncJob relationships sync_jobs_source and
sync_jobs_dest (database.py lines 213-214) carry the SQLAlchemy default
cascade with passive deletes off: the flush loads the referencing SyncJob
rows and de-associates them by nulling their source_node_id/dest_node_id,
which are declared nullable=False (database.py lines 256, 259), a constraint
SQLite enforces unconditionally. The commit therefore raises IntegrityError,
the global exception handler (main.py lines 80-86) answers 500 with detail
Errore interno del server, and the uncommitted transaction leaves both the
Node row and the referencing SyncJob rows unchanged. Only an unreferenced
Node is actually removed. The model returns the HTTP-level outcome together
with the store after the request. -/
def delete_node (st : NodeStore) (node_id : Nat) : Except String String × NodeStore :=
  match st.nodes.find? (fun n => n.id == node_id) with
  | none => (Except.error "Nodo non trovato", st)
  | some _ =>
      if nodeReferenced st node_id then
        (Except.error "Errore interno del server", st)
      else
        (Except.ok "Nodo eliminato",
         { st with nodes := st.nodes.filter (fun n => n.id != node_id) })

/-- C6: deleting a Node that is still referenced by any Job is refused
fail-loud: for every store and node id with a referencing SyncJob, the delete
request ends in an error response (never the success acknowledgement), and
the store after the request is exactly the store before it, so both the Node
row and the referencing Job rows remain unchanged. -/
theorem delete_referenced_node_refused (st : NodeStore) (node_id : Nat)
    (href : nodeReferenced st node_id = true) :
    (∃ msg, (delete_node st node_id).1 = Except.error msg) ∧
    (delete_node st node_id).2 = st := by
  unfold delete_node
  cases h : st.nodes.find? (fun n => n.id == node_id) with
  | none => exact ⟨⟨"Nodo non trovato", rfl⟩, rfl⟩
  | some n =>
      rw [href]
      exact ⟨⟨"Errore interno del server", rfl⟩, rfl⟩

/-- Witness for C6: a store with node 1 and one job referencing it as both
source and destination; the reference hypothesis is discharged by evaluation
and the theorem yields the error outcome with the store unchanged. -/
theorem delete_referenced_node_refused_witness :
    (∃ msg, (delete_node ⟨[⟨1, "pve1"⟩], [⟨1, 1, 1⟩]⟩ 1).1 = Except.error msg) ∧
    (delete_node ⟨[⟨1, "pve1"⟩], [⟨1, 1, 1⟩]⟩ 1).2 = ⟨[⟨1, "pve1"⟩], [⟨1, 1, 1⟩]⟩ :=
  delete_referenced_node_refused ⟨[⟨1, "pve1"⟩], [⟨1, 1, 1⟩]⟩ 1 (by decide)

/-- Python str.replace on character lists: replaces every non-overlapping
occurrence of old, scanning left to right. The fuel argument (instantiated
with the length of the string) only makes the recursion structural; it is
never exhausted on a real call. The embedding is used with a non-empty old
(a storage tag followed by a colon). -/
def pyReplaceAux (old new : List Char) : Nat → List Char → List Char
  | _, [] => []
  | 0, s => s
  | fuel + 1, c :: rest =>
      if List.isPrefixOf old (c :: rest) then
        new ++ pyReplaceAux old new fuel (List.drop (old.length - 1) rest)
      else
        c :: pyReplaceAux old new fuel rest

/-- Python str.replace(old, new) on strings. -/
def pyReplace (s old new : String) : String :=
  String.mk (pyReplaceAux old.data new.data s.data.length s.data)

/-- SchedulerService._adapt_vm_config (scheduler.py lines 325-336): the body
is a stub that returns the configuration unchanged (the comment in the source
says a storage mapping would be needed and returns the config as is). -/
def adapt_vm_config (config source_dataset dest_dataset : String) : String :=
  config

/-- The storage-tag substitution inside ProxmoxService.register_vm
(proxmox_service.py lines 419-423): when source_storage and dest_storage are
both truthy and differ, every occurrence of source_storage followed by a colon
is replaced by dest_storage followed by a colon; otherwise the content passes
through unchanged. -/
def registerVmConfigContent (config_content : String)
    (source_storage dest_storage : Option String) : String :=
  match source_storage, dest_storage with
  | some s, some d =>
      if s != "" && d != "" && s != d then
        pyReplace config_content (s ++ ":") (d ++ ":")
      else config_content
  | _, _ => config_content

/-- Config content written on the scheduler-dispatched path:
_register_vm_after_sync (scheduler.py lines 278-323) passes the config through
_adapt_vm_config and then calls register_vm without source_storage or
dest_storage, so register_vm applies no substitution. -/
def schedulerWrittenConfig (config source_dataset dest_dataset : String) : String :=
  registerVmConfigContent (adapt_vm_config config source_dataset dest_dataset) none none

/-- Config content written on the manual/background-task path:
execute_sync_job_task (sync_jobs.py lines 202-213) and register_vm_manually
(sync_jobs.py lines 948-959) pass job.source_storage and job.dest_storage into
register_vm. -/
def taskWrittenConfig (config : String) (source_storage dest_storage : Option String) : String :=
  registerVmConfigContent config source_storage dest_storage

/-- Counterexample for C7. The claim says the substitution also happens when
the run was dispatched by the scheduler. On the scheduler path the written
config equals the source config verbatim: for the S5 disk line with
source_storage local-zfs and dest_storage replica-zfs, the written line still
carries the local-zfs tag instead of the replica-zfs line the claim requires. -/
theorem scheduler_path_no_substitution_cex :
    schedulerWrittenConfig "scsi0: local-zfs:vm-100-disk-0,size=32G"
        "rpool/data/vm-100-disk-0" "rpool/replica/vm-100-disk-0"
      = "scsi0: local-zfs:vm-100-disk-0,size=32G" ∧
    schedulerWrittenConfig "scsi0: local-zfs:vm-100-disk-0,size=32G"
        "rpool/data/vm-100-disk-0" "rpool/replica/vm-100-disk-0"
      ≠ "scsi0: replica-zfs:vm-100-disk-0,size=32G" := by
  constructor
  · rfl
  · decide

/-- C7 amended: the literal tag substitution holds on the manual/background
registration path: for non-empty, differing tags the written config is
exactly the source config with every occurrence of the source tag followed by
a colon replaced by the destination tag followed by a colon, and the S5 disk
line becomes the claimed replica-zfs line with every other character
preserved; on the scheduler-dispatched path the config is written verbatim
with no substitution at all. -/
theorem storage_tag_substitution :
    (∀ (config s d : String), s ≠ "" → d ≠ "" → s ≠ d →
      taskWrittenConfig config (some s) (some d)
        = pyReplace config (s ++ ":") (d ++ ":")) ∧
    taskWrittenConfig "scsi0: local-zfs:vm-100-disk-0,size=32G"
        (some "local-zfs") (some "replica-zfs")
      = "scsi0: replica-zfs:vm-100-disk-0,size=32G" ∧
    (∀ (config sds dds : String),
      schedulerWrittenConfig config sds dds = config) := by
  refine ⟨?_, ?_, ?_⟩
  · intro config s d hs hd hsd
    unfold taskWrittenConfig registerVmConfigContent
    simp [hs, hd, hsd]
  · decide
  · intro config sds dds
    rfl

/-- Witness for C7: instantiates the universally quantified substitution part
at the concrete S5 tags, discharging the three hypotheses. -/
theorem storage_tag_substitution_witness :
    taskWrittenConfig "scsi0: local-zfs:vm-100-disk-0,size=32G"
        (some "local-zfs") (some "replica-zfs")
      = pyReplace "scsi0: local-zfs:vm-100-disk-0,size=32G"
          ("local-zfs" ++ ":") ("replica-zfs" ++ ":") :=
  storage_tag_substitution.1 "scsi0: local-zfs:vm-100-disk-0,size=32G"
    "local-zfs" "replica-zfs" (by decide) (by decide) (by decide)

/-- Maximal run of ASCII digits at the head of a character list, as matched by
a greedy backslash-d-plus (the source patterns only ever see ASCII output). -/
def takeDigits : List Char → List Char × List Char
  | [] => ([], [])
  | c :: rest =>
      if c.isDigit then
        let p := takeDigits rest
        (c :: p.1, p.2)
      else ([], c :: rest)

/-- Characters of the regex whitespace class (ASCII). -/
def isSpaceChar (c : Char) : Bool :=
  c = ' ' || c = '\t' || c = '\n' || c = '\x0b' || c = '\x0c' || c = '\r'

/-- Maximal run of whitespace at the head of a character list. -/
def takeSpaces : List Char → List Char × List Char
  | [] => ([], [])
  | c :: rest =>
      if isSpaceChar c then
        let p := takeSpaces rest
        (c :: p.1, p.2)
      else ([], c :: rest)

/-- At least one whitespace character, greedy; returns the rest on success. -/
def matchSpaces1 (s : List Char) : Option (List Char) :=
  let p := takeSpaces s
  if p.1 = [] then none else some p.2

/-- Optional single character compared case-insensitively. -/
def matchOptCharCI (target : Char) : List Char → List Char × List Char
  | [] => ([], [])
  | c :: rest => if c.toLower = target then ([c], rest) else ([], c :: rest)

/-- The capture group of the three syncoid transfer patterns
(syncoid_service.py lines 188-190): digits, an optional dot-digits fraction, a
unit letter from KMGT, an optional i and an optional B, all case-insensitive.
Greedy matching never needs to backtrack for this group because no optional
piece can steal a character required later, so maximal munch is faithful to
the re module. Returns the matched group and the rest. -/
def matchVolumeGroup (s : List Char) : Option (List Char × List Char) :=
  let d1 := takeDigits s
  if d1.1 = [] then none
  else
    let frac : List Char × List Char :=
      match d1.2 with
      | '.' :: r =>
          let d2 := takeDigits r
          if d2.1 = [] then ([], d1.2) else ('.' :: d2.1, d2.2)
      | _ => ([], d1.2)
    match frac.2 with
    | [] => none
    | u :: r3 =>
        if u.toLower = 'k' || u.toLower = 'm' || u.toLower = 'g' || u.toLower = 't' then
          let iPart := matchOptCharCI 'i' r3
          let bPart := matchOptCharCI 'b' iPart.2
          some (d1.1 ++ frac.1 ++ [u] ++ iPart.1 ++ bPart.1, bPart.2)
        else none

/-- Case-insensitive literal at the head of a character list; returns the rest. -/
def matchLitCI : List Char → List Char → Option (List Char)
  | [], s => some s
  | _ :: _, [] => none
  | p :: ps, c :: cs => if c.toLower = p.toLower then matchLitCI ps cs else none

/-- First transfer pattern at one position: group, whitespace, "transferred". -/
def matchPat1At (s : List Char) : Option (List Char) :=
  match matchVolumeGroup s with
  | none => none
  | some g =>
      match matchSpaces1 g.2 with
      | none => none
      | some r2 =>
          match matchLitCI "transferred".data r2 with
          | none => none
          | some _ => some g.1

/-- Second transfer pattern at one position: "sent", whitespace, group. -/
def matchPat2At (s : List Char) : Option (List Char) :=
  match matchLitCI "sent".data s with
  | none => none
  | some r1 =>
      match matchSpaces1 r1 with
      | none => none
      | some r2 => (matchVolumeGroup r2).map (fun g => g.1)

/-- Third transfer pattern at one position: group, whitespace, "total". -/
def matchPat3At (s : List Char) : Option (List Char) :=
  match matchVolumeGroup s with
  | none => none
  | some g =>
      match matchSpaces1 g.2 with
      | none => none
      | some r2 =>
          match matchLitCI "total".data r2 with
          | none => none
          | some _ => some g.1

/-- Leftmost search of a position matcher over a string, like re.search: try
each start position from the left and return the first capture. None of the
three patterns can match at the empty suffix, so stopping at the empty list is
faithful. -/
def searchIn (patAt : List Char → Option (List Char)) : List Char → Option (List Char)
  | [] => none
  | c :: rest =>
      match patAt (c :: rest) with
      | some g => some g
      | none => searchIn patAt rest

/-- SyncoidService._parse_transferred (syncoid_service.py lines 184-198):
tries the three patterns in order on the combined output and returns the
capture of the first pattern that matches anywhere, or none. -/
def parse_transferred (output : String) : Option String :=
  match searchIn matchPat1At output.data with
  | some g => some (String.mk g)
  | none =>
      match searchIn matchPat2At output.data with
      | some g => some (String.mk g)
      | none => (searchIn matchPat3At output.data).map String.mk

/-- Result dictionary of SyncoidService.run_sync (syncoid_service.py lines
160-182): success is the ssh exit status; transferred is parsed from the
concatenation of stdout and stderr and has no influence on success. -/
structure SyncRunResult where
  success : Bool
  output : String
  error : String
  transferred : Option String
deriving DecidableEq

/-- Outcome assembly of run_sync from the ssh result fields. -/
def run_sync_result (sshSuccess : Bool) (stdout stderr : String) : SyncRunResult :=
  { success := sshSuccess
    output := stdout
    error := stderr
    transferred := parse_transferred (stdout ++ stderr) }

/-- C8: the transfer parser. For any combined output in which exactly one of
the three patterns occurs (the searches of the other two find nothing), the
parser returns exactly the captured volume substring of that occurrence; when
none of the three patterns occurs it returns none; on the S1 output the
capture is the string 1.5GiB; and a missing transfer marker never fails the
run, because the success flag of the run result is the ssh exit status
irrespective of what the parser returned. -/
theorem transfer_parser_spec (out : String) :
    (∀ g, searchIn matchPat1At out.data = some g →
      parse_transferred out = some (String.mk g)) ∧
    (∀ g, searchIn matchPat1At out.data = none →
      searchIn matchPat2At out.data = some g →
      parse_transferred out = some (String.mk g)) ∧
    (∀ g, searchIn matchPat1At out.data = none →
      searchIn matchPat2At out.data = none →
      searchIn matchPat3At out.data = some g →
      parse_transferred out = some (String.mk g)) ∧
    (searchIn matchPat1At out.data = none →
      searchIn matchPat2At out.data = none →
      searchIn matchPat3At out.data = none →
      parse_transferred out = none) ∧
    parse_transferred "INFO: Sending oldest full snapshot; 1.5GiB transferred in 12s"
      = some "1.5GiB" ∧
    (∀ ok so se, (run_sync_result ok so se).success = ok) := by
  refine ⟨?_, ?_, ?_, ?_, by decide, fun ok so se => rfl⟩
  · intro g h1
    unfold parse_transferred
    rw [h1]
  · intro g h1 h2
    unfold parse_transferred
    rw [h1, h2]
  · intro g h1 h2 h3
    unfold parse_transferred
    rw [h1, h2, h3]
    rfl
  · intro h1 h2 h3
    unfold parse_transferred
    rw [h1, h2, h3]
    rfl

/-- Witness for C8: applies the theorem at a concrete output containing only
the second pattern (sent 1.2M), discharging the two search hypotheses by
evaluation. -/
theorem transfer_parser_spec_witness :
    parse_transferred "total estimated size is 1.3M sent 1.2M stream" = some (String.mk "1.2M".data) :=
  (transfer_parser_spec "total estimated size is 1.3M sent 1.2M stream").2.1
    "1.2M".data (by decide) (by decide)

/-- Result of one remote command (ssh_service.SSHResult). -/
structure SSHResult where
  success : Bool
  stdout : String
  stderr : String
deriving DecidableEq

/-- Substring test over character lists (the Python in operator on str). -/
def containsSubAux (sub : List Char) : List Char → Bool
  | [] => List.isPrefixOf sub []
  | c :: rest => List.isPrefixOf sub (c :: rest) || containsSubAux sub rest

/-- Python sub in s. -/
def containsSub (s sub : String) : Bool :=
  containsSubAux sub.data s.data

/-- The vmid-in-use test of ProxmoxService.register_vm (proxmox_service.py
lines 393-404): the qm/pct status probe succeeded and its stdout mentions
status:, running or stopped. -/
def vmidInUse (checkResult : SSHResult) : Bool :=
  checkResult.success &&
    (containsSub checkResult.stdout "status:" ||
     containsSub checkResult.stdout "running" ||
     containsSub checkResult.stdout "stopped")

/-- Config files of the destination hypervisor, path to content. -/
structure DestHost where
  configs : List (String × String)
deriving DecidableEq

/-- Write (create or overwrite) one config file on the destination. -/
def setConfig (h : DestHost) (path content : String) : DestHost :=
  ⟨(path, content) :: h.configs.filter (fun p => p.1 != path)⟩

/-- Conventional config path for a guest (proxmox_service.py lines 388-391). -/
def vmConfigPath (vm_type : String) (vmid : Nat) : String :=
  if vm_type = "qemu" then "/etc/pve/qemu-server/" ++ toString vmid ++ ".conf"
  else "/etc/pve/lxc/" ++ toString vmid ++ ".conf"

/-- Outcomes of the remote commands register_vm issues after the in-use probe,
treated as oracle inputs of the model. -/
structure RegisterOracles where
  checkResult : SSHResult
  storageEnsureOk : Bool
  writeOk : Bool
  verifyOk : Bool
deriving DecidableEq

/-- ProxmoxService.register_vm (proxmox_service.py lines 367-457) as a
transition on the destination config files. Control flow in source order:
first the vmid-in-use probe, refused with no further action when in use; then
the optional storage ensure; then, when config content was supplied, the
storage-tag substitution and the config file write; finally the status
verification. The file is recorded as written only when the write command
succeeded. -/
def register_vm (h : DestHost) (vmid : Nat) (vm_type : String)
    (config_content : Option String)
    (source_storage dest_storage dest_zfs_pool : Option String)
    (o : RegisterOracles) : Bool × String × DestHost :=
  if vmidInUse o.checkResult then
    (false, "VMID " ++ toString vmid ++ " già in uso su questo nodo", h)
  else if pyTruthyStr dest_storage && pyTruthyStr dest_zfs_pool && !o.storageEnsureOk then
    (false, "Errore storage", h)
  else
    match config_content with
    | some cc =>
        if cc != "" then
          if !o.writeOk then (false, "Errore creazione config", h)
          else
            let h2 := setConfig h (vmConfigPath vm_type vmid)
                        (registerVmConfigContent cc source_storage dest_storage)
            if o.verifyOk then (true, "VM " ++ toString vmid ++ " registrata con successo", h2)
            else (false, "Verifica fallita", h2)
        else
          if o.verifyOk then (true, "VM " ++ toString vmid ++ " registrata con successo", h)
          else (false, "Verifica fallita", h)
    | none =>
        if o.verifyOk then (true, "VM " ++ toString vmid ++ " registrata con successo", h)
        else (false, "Verifica fallita", h)

/-- C9: when the guest id is already present on the destination (the in-use
probe reports a status), register_vm returns a failure mentioning the busy
VMID, and the destination config files are exactly as before: the existing-id
check precedes every write, so the destination hypervisor state is unchanged
on this error. -/
theorem register_vm_conflict_no_write
    (h : DestHost) (vmid : Nat) (vm_type : String)
    (config_content : Option String)
    (source_storage dest_storage dest_zfs_pool : Option String)
    (o : RegisterOracles)
    (hin : vmidInUse o.checkResult = true) :
    register_vm h vmid vm_type config_content source_storage dest_storage dest_zfs_pool o
      = (false, "VMID " ++ toString vmid ++ " già in uso su questo nodo", h) := by
  unfold register_vm
  simp [hin]

/-- Witness for C9: a destination with one existing config and a probe whose
stdout reports status: stopped; the hypothesis is discharged by evaluating the
in-use test. -/
theorem register_vm_conflict_no_write_witness :
    register_vm ⟨[("/etc/pve/qemu-server/100.conf", "memory: 2048")]⟩ 200 "qemu"
        (some "scsi0: local-zfs:vm-100-disk-0,size=32G")
        (some "local-zfs") (some "replica-zfs") (some "rpool/replica")
        ⟨⟨true, "status: stopped", ""⟩, true, true, true⟩
      = (false, "VMID 200 già in uso su questo nodo",
         ⟨[("/etc/pve/qemu-server/100.conf", "memory: 2048")]⟩) :=
  register_vm_conflict_no_write ⟨[("/etc/pve/qemu-server/100.conf", "memory: 2048")]⟩
    200 "qemu" (some "scsi0: local-zfs:vm-100-disk-0,size=32G")
    (some "local-zfs") (some "replica-zfs") (some "rpool/replica")
    ⟨⟨true, "status: stopped", ""⟩, true, true, true⟩ (by decide)

/-- NotificationConfig fields consulted by the event path (database.py lines
149-179). -/
structure NotifConfig where
  smtp_enabled : Bool
  webhook_enabled : Bool
  webhook_url : Option String
  telegram_enabled : Bool
  telegram_bot_token : Option String
  telegram_chat_id : Option String
  notify_on_success : Bool
  notify_on_failure : Bool
  notify_on_warning : Bool
deriving DecidableEq

/-- The per-job success-notification tracking map of NotificationService
(notification_service.py line 26): job id to the timestamp of the last
success notification. Timestamps are minutes since an arbitrary epoch; two
timestamps fall on the same UTC day exactly when they agree after division by
1440. -/
abbrev DedupMap := List (Nat × Nat)

/-- Calendar day of a timestamp in minutes. -/
def dayOf (t : Nat) : Nat := t / 1440

/-- Dictionary read. -/
def dedupLookup (m : DedupMap) (j : Nat) : Option Nat :=
  (m.find? (fun p => p.1 == j)).map (fun p => p.2)

/-- Dictionary assignment. -/
def dedupInsert (m : DedupMap) (j : Nat) (t : Nat) : DedupMap :=
  (j, t) :: m.filter (fun p => p.1 != j)

/-- _cleanup_old_notifications (notification_service.py lines 59-67): drop
entries whose timestamp is more than two days (2880 minutes) before now. -/
def cleanupOld (m : DedupMap) (now : Nat) : DedupMap :=
  m.filter (fun p => !(decide (p.2 + 2880 < now)))

/-- Python truthiness of the optional job id (0 and None are falsy). -/
def pyTruthyNat : Option Nat → Bool
  | none => false
  | some n => n != 0

/-- Per-channel outcomes of the three deliveries, oracle inputs of the model. -/
structure ChannelOutcomes where
  emailOk : Bool
  webhookOk : Bool
  telegramOk : Bool
deriving DecidableEq

/-- Result of one send_job_notification call. -/
inductive NotifResult where
  | notSent (reason : String)
  | sent (channels : List (String × Bool))
deriving DecidableEq

/-- The channel fan-out of send_job_notification (notification_service.py
lines 133-193): email when smtp is enabled, webhook when enabled with a
truthy url, telegram when enabled with truthy token and chat id; each
attempted channel records its own outcome and failures do not affect the
other channels. -/
def channelFanout (cfg : NotifConfig) (o : ChannelOutcomes) : List (String × Bool) :=
  (if cfg.smtp_enabled then [("email", o.emailOk)] else [])
    ++ (if cfg.webhook_enabled && pyTruthyStr cfg.webhook_url then
          [("webhook", o.webhookOk)] else [])
    ++ (if cfg.telegram_enabled && pyTruthyStr cfg.telegram_bot_token
            && pyTruthyStr cfg.telegram_chat_id then
          [("telegram", o.telegramOk)] else [])

/-- NotificationService.send_job_notification (notification_service.py lines
69-193) as a pure transition on the dedup map. Source control flow: missing
config returns not_configured; a status whose trigger flag is off returns a
disabled reason; for a scheduled success with truthy job id the dedup map is
consulted and, when an entry of the same UTC day exists, the call returns
daily_limit_reached with the map untouched, otherwise the map is updated to
now and cleaned BEFORE any channel is attempted; finally the fan-out runs.
Failures and warnings never read or write the map. -/
def send_job_notification (config : Option NotifConfig) (dedup : DedupMap)
    (now : Nat) (status : String) (job_id : Option Nat) (is_scheduled : Bool)
    (o : ChannelOutcomes) : NotifResult × DedupMap :=
  match config with
  | none => (NotifResult.notSent "not_configured", dedup)
  | some cfg =>
      let should_notify :=
        (status == "success" && cfg.notify_on_success) ||
        (status == "failed" && cfg.notify_on_failure) ||
        (status == "warning" && cfg.notify_on_warning)
      if !should_notify then
        (NotifResult.notSent ("notify_on_" ++ status ++ "_disabled"), dedup)
      else
        if is_scheduled && pyTruthyNat job_id && status == "success" then
          let jid := job_id.getD 0
          match dedupLookup dedup jid with
          | some last =>
              if dayOf last == dayOf now then
                (NotifResult.notSent "daily_limit_reached", dedup)
              else
                (NotifResult.sent (channelFanout cfg o),
                 cleanupOld (dedupInsert dedup jid now) now)
          | none =>
              (NotifResult.sent (channelFanout cfg o),
               cleanupOld (dedupInsert dedup jid now) now)
        else
          (NotifResult.sent (channelFanout cfg o), dedup)

/-- C10: the dedup entry is recorded per dispatch attempt, not per successful
delivery, and failures bypass the map. Conjuncts: (1) for a scheduled success
of a job with no entry yet, the map afterwards holds the dispatch time for
that job, and the map afterwards is identical for any two channel-outcome
vectors: it is recorded independently of (hence before) every delivery,
including all-failing or empty fan-outs; (2) after such a dispatch, a second
scheduled success of the same job on the same UTC day returns
daily_limit_reached and leaves the map untouched, whatever its channel
outcomes; (3) a failed outcome never reads or writes the map: the map is
returned unchanged and the result is the same whatever the map holds. -/
theorem notification_dedup_before_delivery
    (cfg : NotifConfig) (dedup : DedupMap) (now : Nat) (jid : Nat)
    (o : ChannelOutcomes)
    (hs : cfg.notify_on_success = true) (hj : jid ≠ 0)
    (hnew : dedupLookup dedup jid = none) :
    (dedupLookup (send_job_notification (some cfg) dedup now "success"
        (some jid) true o).2 jid = some now ∧
     ∀ o₂ : ChannelOutcomes,
       (send_job_notification (some cfg) dedup now "success" (some jid) true o).2
         = (send_job_notification (some cfg) dedup now "success" (some jid) true o₂).2) ∧
    (∀ (now₂ : Nat) (o₂ : ChannelOutcomes), dayOf now₂ = dayOf now →
      send_job_notification (some cfg)
          (send_job_notification (some cfg) dedup now "success" (some jid) true o).2
          now₂ "success" (some jid) true o₂
        = (NotifResult.notSent "daily_limit_reached",
           (send_job_notification (some cfg) dedup now "success" (some jid) true o).2)) ∧
    (∀ (m : DedupMap) (sched : Bool) (o₂ : ChannelOutcomes),
      (send_job_notification (some cfg) m now "failed" (some jid) sched o₂).2 = m ∧
      (send_job_notification (some cfg) m now "failed" (some jid) sched o₂).1
        = (send_job_notification (some cfg) dedup now "failed" (some jid) sched o₂).1) := by
  have hjid : pyTruthyNat (some jid) = true := by
    simp [pyTruthyNat, hj]
  have hsend : ∀ oo : ChannelOutcomes,
      send_job_notification (some cfg) dedup now "success" (some jid) true oo
        = (NotifResult.sent (channelFanout cfg oo),
           cleanupOld (dedupInsert dedup jid now) now) := by
    intro oo
    unfold send_job_notification
    simp [hs, hjid, hnew]
  have hkeep : ¬ (now + 2880 < now) := by omega
  have hrec : dedupLookup (cleanupOld (dedupInsert dedup jid now) now) jid
      = some now := by
    simp [dedupLookup, dedupInsert, cleanupOld, List.filter_cons, hkeep, List.find?]
  refine ⟨⟨?_, ?_⟩, ?_, ?_⟩
  · rw [hsend o]
    exact hrec
  · intro o₂
    rw [hsend o, hsend o₂]
  · intro now₂ o₂ hday
    rw [hsend o]
    unfold send_job_notification
    simp [hs, hjid, hrec, hday]
  · intro m sched o₂
    constructor
    · unfold send_job_notification
      by_cases hf : cfg.notify_on_failure <;> simp [hf]
    · unfold send_job_notification
      by_cases hf : cfg.notify_on_failure <;> simp [hf]

/-- Witness for C10: a config with success and failure triggers on and only
smtp enabled, an empty map, job 7, at minute 3000 of the epoch; all three
hypotheses are discharged by evaluation. -/
theorem notification_dedup_before_delivery_witness :
    dedupLookup (send_job_notification
        (some ⟨true, false, none, false, none, none, true, true, true⟩)
        [] 3000 "success" (some 7) true ⟨false, false, false⟩).2 7 = some 3000 :=
  (notification_dedup_before_delivery
    ⟨true, false, none, false, none, none, true, true, true⟩
    [] 3000 7 ⟨false, false, false⟩ (by decide) (by decide) (by decide)).1.1

end SanoidManager
